import Mathlib

/-!
Verification of the structured error taxonomy and the client-facing
error-code JSON codec implemented in `src/infra/src/errors/mod.rs`.

The Rust enums are embedded as Lean inductives; the `thiserror`-derived
`Display` implementations become explicit `display` functions; the
`From` conversion impls become explicit conversion functions.  The JSON
layer (`config::utils::json`, a re-export of `serde_json`) is embedded
as an explicit `Json` value type with an executable serializer and
parser modelling serde_json's compact grammar.
-/

namespace Infra

/-- Opening brace character, written via its code point. -/
def lbrace : Char := Char.ofNat 123

/-- Closing brace character, written via its code point. -/
def rbrace : Char := Char.ofNat 125

/-- JSON values, modelling `serde_json::Value` as used through
`config::utils::json`.  Integer-valued numbers carry their exact
integer; non-integer numeric literals (`numOther`) carry their source
text and behave like serde's f64 numbers with respect to `as_i64`
(which returns `none` on them).  Objects are key/value lists built with
last-insert-wins semantics, modelling `serde_json::Map`. -/
inductive Json where
  | null : Json
  | bool (b : Bool) : Json
  | num (n : Int) : Json
  | numOther (src : List Char) : Json
  | str (s : String) : Json
  | arr (elems : List Json) : Json
  | obj (members : List (String × Json)) : Json
deriving Repr

/-- Key insertion with overwrite, modelling `serde_json::Map::insert`
(and the map built up by object parsing, where a duplicate key
overwrites the earlier value). -/
def insertKV : List (String × Json) → String → Json → List (String × Json)
  | [], k, v => [(k, v)]
  | (k0, v0) :: rest, k, v =>
    if k0 = k then (k0, v) :: rest else (k0, v0) :: insertKV rest k v

/-- Key lookup, modelling `serde_json::Map::get`. -/
def lookupKV : List (String × Json) → String → Option Json
  | [], _ => none
  | (k, v) :: rest, key => if k = key then some v else lookupKV rest key

/-- Modelling `serde_json::Value::as_object`. -/
def Json.as_object : Json → Option (List (String × Json))
  | .obj ms => some ms
  | _ => none

/-- Modelling `serde_json::Value::as_i64`: an integer number in the
`i64` range yields itself; `u64`-only or non-integer numbers yield
`none`. -/
def Json.as_i64 : Json → Option Int
  | .num n => if -(2 ^ 63) ≤ n ∧ n < 2 ^ 63 then some n else none
  | _ => none

/-- Lowercase hexadecimal digit for a value below 16, as used by
serde_json's control-character escapes. -/
def hexDigitChar (n : Nat) : Char :=
  if n < 10 then Char.ofNat (48 + n) else Char.ofNat (87 + n)

/-- Escaping of a single character inside a JSON string literal,
following serde_json: quote and backslash get two-character escapes,
the named control characters get their short escapes, all other control
characters below 0x20 become `\u00XX`, and everything else passes
through verbatim. -/
def escapeChar (c : Char) : List Char :=
  if c = '"' then ['\\', '"']
  else if c = '\\' then ['\\', '\\']
  else if c = Char.ofNat 8 then ['\\', 'b']
  else if c = Char.ofNat 9 then ['\\', 't']
  else if c = '\n' then ['\\', 'n']
  else if c = Char.ofNat 12 then ['\\', 'f']
  else if c = '\r' then ['\\', 'r']
  else if c.toNat < 32 then
    ['\\', 'u', '0', '0', hexDigitChar (c.toNat / 16), hexDigitChar (c.toNat % 16)]
  else [c]

/-- Escaping of a whole character sequence, written with an explicit
continuation `k` (the text that follows the escaped sequence) so that
serialized output is a right-nested character list by construction. -/
def escAcc : List Char → List Char → List Char
  | [], k => k
  | c :: rest, k => escapeChar c ++ escAcc rest k

/-- Rendering of a JSON string literal including its quotes, followed
by the continuation `k`. -/
def strAcc (s : List Char) (k : List Char) : List Char :=
  '"' :: escAcc s ('"' :: k)

mutual

/-- Compact serialization of a JSON value followed by the continuation
`k`, modelling `serde_json::Value::to_string`. -/
def renderJsonAcc : Json → List Char → List Char
  | .null, k => 'n' :: 'u' :: 'l' :: 'l' :: k
  | .bool true, k => 't' :: 'r' :: 'u' :: 'e' :: k
  | .bool false, k => 'f' :: 'a' :: 'l' :: 's' :: 'e' :: k
  | .num n, k => (toString n).data ++ k
  | .numOther src, k => src ++ k
  | .str s, k => strAcc s.data k
  | .arr es, k => '[' :: renderElemsAcc es (']' :: k)
  | .obj ms, k => lbrace :: renderMembersAcc ms (rbrace :: k)

/-- Comma-separated serialization of array elements. -/
def renderElemsAcc : List Json → List Char → List Char
  | [], k => k
  | [j], k => renderJsonAcc j k
  | j :: rest, k => renderJsonAcc j (',' :: renderElemsAcc rest k)

/-- Comma-separated serialization of object members. -/
def renderMembersAcc : List (String × Json) → List Char → List Char
  | [], k => k
  | [(key, v)], k => strAcc key.data (':' :: renderJsonAcc v k)
  | (key, v) :: rest, k =>
    strAcc key.data (':' :: renderJsonAcc v (',' :: renderMembersAcc rest k))

end

/-- Compact serialization of a JSON value, modelling
`serde_json::Value::to_string`. -/
def renderJson (j : Json) : List Char :=
  renderJsonAcc j []

/-- JSON insignificant whitespace. -/
def isWSChar (c : Char) : Bool :=
  c = ' ' || c = Char.ofNat 9 || c = '\n' || c = '\r'

/-- Skip insignificant whitespace. -/
def skipWS : List Char → List Char
  | [] => []
  | c :: rest => if isWSChar c then skipWS rest else c :: rest

/-- Value of one hexadecimal digit character. -/
def hexVal (c : Char) : Option Nat :=
  if 48 ≤ c.toNat ∧ c.toNat ≤ 57 then some (c.toNat - 48)
  else if 97 ≤ c.toNat ∧ c.toNat ≤ 102 then some (c.toNat - 87)
  else if 65 ≤ c.toNat ∧ c.toNat ≤ 70 then some (c.toNat - 55)
  else none

/-- Parse the body of a JSON string literal (after the opening quote),
returning the decoded characters and the input remaining after the
closing quote.  Mirrors serde_json: raw control characters are
rejected, the standard escapes are decoded, and `\uXXXX` is decoded for
non-surrogate code points (surrogate pairs do not occur in any input
considered here). -/
def parseStringBody : List Char → Option (List Char × List Char)
  | [] => none
  | c :: rest =>
    if c = '"' then some ([], rest)
    else if c = '\\' then
      match rest with
      | [] => none
      | e :: rest2 =>
        if e = '"' then (parseStringBody rest2).map fun p => ('"' :: p.1, p.2)
        else if e = '\\' then (parseStringBody rest2).map fun p => ('\\' :: p.1, p.2)
        else if e = '/' then (parseStringBody rest2).map fun p => ('/' :: p.1, p.2)
        else if e = 'b' then (parseStringBody rest2).map fun p => (Char.ofNat 8 :: p.1, p.2)
        else if e = 'f' then (parseStringBody rest2).map fun p => (Char.ofNat 12 :: p.1, p.2)
        else if e = 'n' then (parseStringBody rest2).map fun p => ('\n' :: p.1, p.2)
        else if e = 'r' then (parseStringBody rest2).map fun p => ('\r' :: p.1, p.2)
        else if e = 't' then (parseStringBody rest2).map fun p => (Char.ofNat 9 :: p.1, p.2)
        else if e = 'u' then
          match rest2 with
          | h1 :: h2 :: h3 :: h4 :: rest3 =>
            match hexVal h1, hexVal h2, hexVal h3, hexVal h4 with
            | some a, some b, some c2, some d =>
              let n := ((a * 16 + b) * 16 + c2) * 16 + d
              if n < 55296 ∨ 57344 ≤ n then
                (parseStringBody rest3).map fun p => (Char.ofNat n :: p.1, p.2)
              else none
            | _, _, _, _ => none
          | _ => none
        else none
    else if c.toNat < 32 then none
    else (parseStringBody rest).map fun p => (c :: p.1, p.2)

/-- Characters that can occur inside a JSON number literal. -/
def isNumChar (c : Char) : Bool :=
  c.isDigit || c = '.' || c = 'e' || c = 'E' || c = '+' || c = '-'

/-- Read a run of decimal digits into an accumulator, returning the
value and the remaining input. -/
def readDigits : List Char → Nat → Nat × List Char
  | c :: rest, acc =>
    if c.isDigit then readDigits rest (acc * 10 + (c.toNat - 48)) else (acc, c :: rest)
  | [], acc => (acc, [])

/-- Split the integer part off a number literal run, enforcing JSON's
no-leading-zero rule. -/
def intPartSplit : List Char → Option (Nat × List Char)
  | '0' :: rest => some (0, rest)
  | c :: rest => if c.isDigit then some (readDigits rest (c.toNat - 48)) else none
  | [] => none

/-- All characters are decimal digits and there is at least one. -/
def allDigits1 (l : List Char) : Bool :=
  decide (l ≠ []) && l.all (fun c => c.isDigit)

/-- Exponent digits with optional sign, per the JSON grammar. -/
def expDigits : List Char → Bool
  | '+' :: rest => allDigits1 rest
  | '-' :: rest => allDigits1 rest
  | l => allDigits1 l

/-- Optional exponent part, per the JSON grammar. -/
def expOnly : List Char → Bool
  | [] => true
  | 'e' :: rest => expDigits rest
  | 'E' :: rest => expDigits rest
  | _ => false

/-- Optional fraction part followed by an optional exponent part, per
the JSON grammar. -/
def fracExp : List Char → Bool
  | '.' :: rest =>
    allDigits1 (rest.takeWhile (fun c => c.isDigit)) &&
      expOnly (rest.dropWhile (fun c => c.isDigit))
  | l => expOnly l

/-- Classify a maximal number-character run: a plain integer literal
becomes `Json.num`; a literal with a fraction or exponent part becomes
`Json.numOther`; anything else is a parse error. -/
def classifyNum (neg : Bool) (run : List Char) : Option Json :=
  match intPartSplit run with
  | none => none
  | some (n, rest) =>
    if rest.isEmpty then some (Json.num (if neg then -(n : Int) else (n : Int)))
    else if fracExp rest then
      some (Json.numOther (if neg then '-' :: run else run))
    else none

/-- Parse a number at the head of the input (the leading minus sign, if
any, has already been consumed). -/
def parseNum (neg : Bool) (l : List Char) : Option (Json × List Char) :=
  match classifyNum neg (l.takeWhile isNumChar) with
  | some j => some (j, l.dropWhile isNumChar)
  | none => none

/-- Parse the members of a JSON object after its opening brace, given a
parser `pv` for member values and a step-count bound `lfuel` (always
chosen large enough that it is never exhausted on inputs whose members
each consume at least one character). -/
def membersLoop (pv : List Char → Option (Json × List Char)) :
    Nat → List Char → List (String × Json) → Option (List (String × Json) × List Char)
  | 0, _, _ => none
  | lfuel + 1, input, acc =>
    match skipWS input with
    | '"' :: rest =>
      match parseStringBody rest with
      | none => none
      | some (key, rest2) =>
        match skipWS rest2 with
        | ':' :: rest3 =>
          match pv rest3 with
          | none => none
          | some (v, rest4) =>
            match skipWS rest4 with
            | ',' :: rest5 => membersLoop pv lfuel rest5 (insertKV acc (String.mk key) v)
            | c :: rest5 =>
              if c = rbrace then some (insertKV acc (String.mk key) v, rest5) else none
            | [] => none
        | _ => none
    | _ => none

/-- Parse the elements of a JSON array after its opening bracket, given
a parser `pv` for element values and a step-count bound. -/
def elemsLoop (pv : List Char → Option (Json × List Char)) :
    Nat → List Char → List Json → Option (List Json × List Char)
  | 0, _, _ => none
  | lfuel + 1, input, acc =>
    match pv input with
    | none => none
    | some (v, rest) =>
      match skipWS rest with
      | ',' :: rest2 => elemsLoop pv lfuel rest2 (acc ++ [v])
      | ']' :: rest2 => some (acc ++ [v], rest2)
      | _ => none

/-- One layer of JSON value parsing: scalars are handled directly,
objects and arrays delegate member/element values to `pv`. -/
def parseValCore (pv : List Char → Option (Json × List Char)) (loopFuel : Nat)
    (input : List Char) : Option (Json × List Char) :=
  match skipWS input with
  | [] => none
  | c :: rest =>
    if c = '"' then (parseStringBody rest).map fun p => (Json.str (String.mk p.1), p.2)
    else if c = lbrace then
      match skipWS rest with
      | c2 :: rest2 =>
        if c2 = rbrace then some (Json.obj [], rest2)
        else (membersLoop pv loopFuel (c2 :: rest2) []).map fun p => (Json.obj p.1, p.2)
      | [] => none
    else if c = '[' then
      match skipWS rest with
      | ']' :: rest2 => some (Json.arr [], rest2)
      | l => (elemsLoop pv loopFuel l []).map fun p => (Json.arr p.1, p.2)
    else if c = 't' then
      match rest with
      | 'r' :: 'u' :: 'e' :: r => some (Json.bool true, r)
      | _ => none
    else if c = 'f' then
      match rest with
      | 'a' :: 'l' :: 's' :: 'e' :: r => some (Json.bool false, r)
      | _ => none
    else if c = 'n' then
      match rest with
      | 'u' :: 'l' :: 'l' :: r => some (Json.null, r)
      | _ => none
    else if c = '-' then parseNum true rest
    else if c.isDigit then parseNum false (c :: rest)
    else none

/-- Fuelled JSON value parser.  The fuel bounds the nesting depth and
the member/element counts; callers pass the input length plus a margin,
which no input can exhaust since each nesting level and each member
consumes at least one character. -/
def parseVal : Nat → List Char → Option (Json × List Char)
  | 0, _ => none
  | d + 1, input => parseValCore (fun l => parseVal d l) (d + 1) input

/-- Parse a complete JSON document, modelling `serde_json::from_str`
for `Value`: one value, with only whitespace allowed after it. -/
def Json.parse (s : String) : Option Json :=
  match parseVal (s.data.length + 3) s.data with
  | some (j, rest) => if skipWS rest = [] then some j else none
  | none => none

/-- The client-facing error code registry `ErrorCodes`
(`src/infra/src/errors/mod.rs`, lines 181-196). -/
inductive ErrorCodes where
  | ServerInternalError (msg : String)
  | SearchSQLNotValid (sql : String)
  | SearchStreamNotFound (stream : String)
  | FullTextSearchFieldNotFound
  | SearchFieldNotFound (field : String)
  | SearchFunctionNotDefined (func : String)
  | SearchParquetFileNotFound
  | SearchFieldHasNoCompatibleDataType (field : String)
  | SearchSQLExecuteError (msg : String)
  | SearchCancelQuery (msg : String)
  | SearchTimeout (msg : String)
  | InvalidParams (msg : String)
  | RatelimitExceeded (msg : String)
deriving Repr, DecidableEq

namespace ErrorCodes

/-- Mirror of `ErrorCodes::get_code` (lines 235-251). -/
def get_code : ErrorCodes → Nat
  | .ServerInternalError _ => 10001
  | .SearchSQLNotValid _ => 20001
  | .SearchStreamNotFound _ => 20002
  | .FullTextSearchFieldNotFound => 20003
  | .SearchFieldNotFound _ => 20004
  | .SearchFunctionNotDefined _ => 20005
  | .SearchParquetFileNotFound => 20006
  | .SearchFieldHasNoCompatibleDataType _ => 20007
  | .SearchSQLExecuteError _ => 20008
  | .SearchCancelQuery _ => 20009
  | .SearchTimeout _ => 20010
  | .InvalidParams _ => 20011
  | .RatelimitExceeded _ => 20012

/-- Mirror of `ErrorCodes::get_message` (lines 253-277). -/
def get_message : ErrorCodes → String
  | .ServerInternalError _ => "Server Internal Error"
  | .SearchSQLNotValid _ => "Search SQL not valid"
  | .SearchStreamNotFound stream => "Search stream not found: " ++ stream
  | .FullTextSearchFieldNotFound => "Full text search field not found"
  | .SearchFieldNotFound field => "Search field not found: " ++ field
  | .SearchFunctionNotDefined func => "Search function not defined: " ++ func
  | .SearchParquetFileNotFound => "Search parquet file not found"
  | .SearchFieldHasNoCompatibleDataType field =>
      "Search field has no compatible data type: " ++ field
  | .SearchSQLExecuteError _ => "Search SQL execute error"
  | .SearchCancelQuery _ => "Search query was cancelled"
  | .SearchTimeout _ => "Search query timed out"
  | .InvalidParams _ => "Invalid parameters"
  | .RatelimitExceeded _ => "Ratelimit exceeded"

/-- Mirror of `ErrorCodes::get_inner_message` (lines 279-295). -/
def get_inner_message : ErrorCodes → String
  | .ServerInternalError msg => msg
  | .SearchSQLNotValid sql => sql
  | .SearchStreamNotFound stream => stream
  | .FullTextSearchFieldNotFound => ""
  | .SearchFieldNotFound field => field
  | .SearchFunctionNotDefined func => func
  | .SearchParquetFileNotFound => ""
  | .SearchFieldHasNoCompatibleDataType field => field
  | .SearchSQLExecuteError msg => msg
  | .SearchCancelQuery msg => msg
  | .SearchTimeout msg => msg
  | .InvalidParams msg => msg
  | .RatelimitExceeded msg => msg

/-- Mirror of `ErrorCodes::get_error_detail` (lines 297-313). -/
def get_error_detail : ErrorCodes → String
  | .ServerInternalError msg => msg
  | .SearchSQLNotValid sql => sql
  | .SearchStreamNotFound _ => ""
  | .FullTextSearchFieldNotFound => ""
  | .SearchFieldNotFound _ => ""
  | .SearchFunctionNotDefined _ => ""
  | .SearchParquetFileNotFound => ""
  | .SearchFieldHasNoCompatibleDataType _ => ""
  | .SearchSQLExecuteError msg => msg
  | .SearchCancelQuery msg => msg
  | .SearchTimeout msg => msg
  | .InvalidParams msg => msg
  | .RatelimitExceeded msg => msg

/-- Constructor tag of an `ErrorCodes` value, used to state that
`get_code` depends only on the variant tag. -/
def tagIdx : ErrorCodes → Nat
  | .ServerInternalError _ => 0
  | .SearchSQLNotValid _ => 1
  | .SearchStreamNotFound _ => 2
  | .FullTextSearchFieldNotFound => 3
  | .SearchFieldNotFound _ => 4
  | .SearchFunctionNotDefined _ => 5
  | .SearchParquetFileNotFound => 6
  | .SearchFieldHasNoCompatibleDataType _ => 7
  | .SearchSQLExecuteError _ => 8
  | .SearchCancelQuery _ => 9
  | .SearchTimeout _ => 10
  | .InvalidParams _ => 11
  | .RatelimitExceeded _ => 12

/-- The JSON object built by `ErrorCodes::to_json` (lines 315-324)
before serialization: three `Map::insert` calls for `code`, `message`
and `inner`. -/
def to_json_value (v : ErrorCodes) : Json :=
  Json.obj
    (insertKV
      (insertKV
        (insertKV [] "code" (Json.num (v.get_code : Int)))
        "message" (Json.str v.get_message))
      "inner" (Json.str v.get_inner_message))

/-- Mirror of `ErrorCodes::to_json`: the serialized map.  Key order in
the serialized text follows insertion order here; the wire contract
(spec section 6) makes field order insignificant and no claim depends
on it. -/
def to_json (v : ErrorCodes) : String :=
  String.mk (renderJson (to_json_value v))

end ErrorCodes

/-- Rendering of `config::meta::alerts::Operator` values.  That type
lives outside the embedded sources and only its `Display` output is
observable here, so it is modelled opaquely by that output. -/
structure Operator where
  rendered : String
deriving Repr, DecidableEq

/-- Opaque model of an error value owned by an external crate
(`std::io::Error`, `etcd_client::Error`, `config::utils::json::Error`,
`ArrowError`, `FromUtf8Error`, `sqlx::Error`, the `async_nats` error
kinds, `reqwest::Error`, `anyhow::Error`, `sea_orm::DbErr`).  Those
types live outside the embedded sources and only their `Display`
output is observable through the apex type, so, like `Operator`, each
value is modelled by that output. -/
structure ExternalError where
  rendered : String
deriving Repr, DecidableEq

/-- Mirror of the `FromStrError` struct (lines 95-100). -/
structure FromStrError where
  value : String
  ty : String
deriving Repr, DecidableEq

/-- Display of `FromStrError` per its `thiserror` attribute
`cannot parse "{value}" as {ty}`. -/
def FromStrError.display (e : FromStrError) : String :=
  "cannot parse \"" ++ e.value ++ "\" as " ++ e.ty

/-- Mirror of the `FromI16Error` struct (lines 102-107); the `i16`
field is embedded as an integer. -/
structure FromI16Error where
  value : Int
  ty : String
deriving Repr, DecidableEq

/-- Display of `FromI16Error` per its `thiserror` attribute
`cannot convert "{value}" to {ty}`. -/
def FromI16Error.display (e : FromI16Error) : String :=
  "cannot convert \"" ++ toString e.value ++ "\" to " ++ e.ty

/-- Mirror of `GetDashboardError` (lines 131-135). -/
inductive GetDashboardError where
  | UnsupportedVersion (version : Int)
deriving Repr, DecidableEq

/-- Mirror of `PutDashboardError` (lines 137-149). -/
inductive PutDashboardError where
  | FolderDoesNotExist
  | MissingDashboardId
  | MissingTitle
  | MissingOwner
  | MissingInnerData (version : Int)
deriving Repr, DecidableEq

/-- Mirror of `PutAlertError` (lines 151-163). -/
inductive PutAlertError where
  | CreateAlertSetID
  | UpdateAlertMissingID
  | UpdateAlertNotFound
  | FolderDoesNotExist
  | IntoTriggerThresholdOperator (op : Operator)
deriving Repr, DecidableEq

/-- Mirror of `DestinationError` (lines 165-173). -/
inductive DestinationError where
  | AlertDestTemplateNotFound
  | AlertDestEmptyTemplateId
  | ConvertingId (detail : String)
deriving Repr, DecidableEq

/-- Mirror of `TemplateError` (lines 175-179). -/
inductive TemplateError where
  | ConvertingId (detail : String)
deriving Repr, DecidableEq

/-- Mirror of `DbError` (lines 109-129). -/
inductive DbError where
  | KeyNotExists (key : String)
  | DBOperError (e : String) (key : String)
  | UniqueViolation
  | SeaORMError (e : String)
  | GetDashboardError (e : GetDashboardError)
  | PutDashboard (e : PutDashboardError)
  | DestinationError (e : DestinationError)
  | TemplateError (e : TemplateError)
  | PutAlert (e : PutAlertError)
deriving Repr, DecidableEq

/-- Mirror of the apex `Error` enum (lines 23-91), with every variant
in source order.  Variants wrapping an error type owned by an external
crate carry an `ExternalError` (that type's `Display` output), since
the apex type only forwards that output after a fixed prefix; the
thirteen messaging-client variants are kept distinct exactly as in the
source. -/
inductive Error where
  | IoError (e : ExternalError)
  | DbError (e : DbError)
  | EtcdError (e : ExternalError)
  | FromStrError (e : FromStrError)
  | FromI16Error (e : FromI16Error)
  | SerdeJsonError (e : ExternalError)
  | ArrowError (e : ExternalError)
  | WatcherExists (key : String)
  | StringUTF8Error (e : ExternalError)
  | SqlxError (e : ExternalError)
  | NatsKJetstreamContextRequestError (e : ExternalError)
  | NatsJetstreamContextCreateKeyValueError (e : ExternalError)
  | NatsJetstreamKvEntryError (e : ExternalError)
  | NatsKJetstreamKvPutError (e : ExternalError)
  | NatsKJetstreamKvUpdateError (e : ExternalError)
  | NatsKJetstreamKvWatchError (e : ExternalError)
  | NatsKJetstreamKvWatcherError (e : ExternalError)
  | NatsKJetstreamKvStatusError (e : ExternalError)
  | NatsKJetstreamCreateStreamError (e : ExternalError)
  | NatsKJetstreamGetStreamError (e : ExternalError)
  | NatsKJetstreamPublishError (e : ExternalError)
  | NatsKJetstreamStreamConsumerError (e : ExternalError)
  | NatsKJetstreamConsumerStreamError (e : ExternalError)
  | Message (msg : String)
  | ErrorCode (e : ErrorCodes)
  | NotImplemented
  | Unknown
  | Reqwest (e : ExternalError)
  | ResourceError (msg : String)
  | IngestionError (msg : String)
  | WalFileError (msg : String)
  | OtherError (e : ExternalError)
deriving Repr, DecidableEq

/-- Display of `GetDashboardError` per its `thiserror` attribute. -/
def GetDashboardError.display : GetDashboardError → String
  | .UnsupportedVersion v =>
      "dashboard in DB has version " ++ toString v ++ " which cannot be deserialized"

/-- Display of `PutDashboardError` per its `thiserror` attributes. -/
def PutDashboardError.display : PutDashboardError → String
  | .FolderDoesNotExist => "error putting dashboard with folder that does not exist"
  | .MissingDashboardId => "error putting dashboard with missing dashboard_id"
  | .MissingTitle => "error putting dashboard with missing title"
  | .MissingOwner => "error putting dashboard with missing owner"
  | .MissingInnerData v =>
      "error putting dashboard with missing inner data for version " ++ toString v

/-- Display of `PutAlertError` per its `thiserror` attributes. -/
def PutAlertError.display : PutAlertError → String
  | .CreateAlertSetID => "cannot provide alert ID when creating an alert"
  | .UpdateAlertMissingID => "must provide alert ID when updating an alert"
  | .UpdateAlertNotFound => "alert to update not found"
  | .FolderDoesNotExist => "error putting alert with folder that does not exist"
  | .IntoTriggerThresholdOperator op =>
      "cannot convert " ++ op.rendered ++ " into a trigger threshold operator"

/-- Display of `DestinationError` per its `thiserror` attributes. -/
def DestinationError.display : DestinationError → String
  | .AlertDestTemplateNotFound => "alert destination template not found"
  | .AlertDestEmptyTemplateId => "alert destination in DB has empty template id"
  | .ConvertingId detail => "error converting destination id: " ++ detail

/-- Display of `TemplateError` per its `thiserror` attribute. -/
def TemplateError.display : TemplateError → String
  | .ConvertingId detail => "error converting template id: " ++ detail

/-- Display of `DbError` per its `thiserror` attributes.  Note that the
`GetDashboardError` variant's attribute is the fixed string
`"error getting dashboard"`, which does not interpolate the wrapped
value, while the other wrapping variants use `"<Tag># {0}"`. -/
def DbError.display : DbError → String
  | .KeyNotExists key => "key " ++ key ++ " does not exist"
  | .DBOperError e key => "error " ++ e ++ " performing operation on key " ++ key
  | .UniqueViolation => "Unique constraint violation"
  | .SeaORMError e => "SeaORMError# " ++ e
  | .GetDashboardError _ => "error getting dashboard"
  | .PutDashboard e => "PutDashboard# " ++ e.display
  | .DestinationError e => "DestinationError# " ++ e.display
  | .TemplateError e => "TemplateError# " ++ e.display
  | .PutAlert e => "PutAlert# " ++ e.display

/-- Display of the apex `Error` per its `thiserror` attributes
(`ErrorCodes`'s own `Display` is its `to_json` output, lines 228-232;
the messaging-client, `Reqwest` and `OtherError` variants all use the
generic `Error# {0}` attribute). -/
def Error.display : Error → String
  | .IoError e => "IoError# " ++ e.rendered
  | .DbError e => "DbError# " ++ e.display
  | .EtcdError e => "EtcdError# " ++ e.rendered
  | .FromStrError e => "FromStrError# " ++ e.display
  | .FromI16Error e => "FromI16Error# " ++ e.display
  | .SerdeJsonError e => "SerdeJsonError# " ++ e.rendered
  | .ArrowError e => "ArrowError# " ++ e.rendered
  | .WatcherExists key => "WatchError# watcher is exists " ++ key
  | .StringUTF8Error e => "StringUTF8Error# " ++ e.rendered
  | .SqlxError e => "SqlxError# " ++ e.rendered
  | .NatsKJetstreamContextRequestError e => "Error# " ++ e.rendered
  | .NatsJetstreamContextCreateKeyValueError e => "Error# " ++ e.rendered
  | .NatsJetstreamKvEntryError e => "Error# " ++ e.rendered
  | .NatsKJetstreamKvPutError e => "Error# " ++ e.rendered
  | .NatsKJetstreamKvUpdateError e => "Error# " ++ e.rendered
  | .NatsKJetstreamKvWatchError e => "Error# " ++ e.rendered
  | .NatsKJetstreamKvWatcherError e => "Error# " ++ e.rendered
  | .NatsKJetstreamKvStatusError e => "Error# " ++ e.rendered
  | .NatsKJetstreamCreateStreamError e => "Error# " ++ e.rendered
  | .NatsKJetstreamGetStreamError e => "Error# " ++ e.rendered
  | .NatsKJetstreamPublishError e => "Error# " ++ e.rendered
  | .NatsKJetstreamStreamConsumerError e => "Error# " ++ e.rendered
  | .NatsKJetstreamConsumerStreamError e => "Error# " ++ e.rendered
  | .Message msg => "Error# " ++ msg
  | .ErrorCode e => "ErrorCode# " ++ e.to_json
  | .NotImplemented => "Not implemented"
  | .Unknown => "Unknown error"
  | .Reqwest e => "Error# " ++ e.rendered
  | .ResourceError msg => "Error# " ++ msg
  | .IngestionError msg => "Error# " ++ msg
  | .WalFileError msg => "Error# " ++ msg
  | .OtherError e => "Error# " ++ e.rendered

/-- Mirror of the `#[from]` conversion `GetDashboardError → DbError`. -/
def GetDashboardError.toDbError (e : GetDashboardError) : DbError :=
  DbError.GetDashboardError e

/-- Mirror of the `#[from]` conversion `PutDashboardError → DbError`. -/
def PutDashboardError.toDbError (e : PutDashboardError) : DbError :=
  DbError.PutDashboard e

/-- Mirror of the `#[from]` conversion `DestinationError → DbError`. -/
def DestinationError.toDbError (e : DestinationError) : DbError :=
  DbError.DestinationError e

/-- Mirror of the `#[from]` conversion `TemplateError → DbError`. -/
def TemplateError.toDbError (e : TemplateError) : DbError :=
  DbError.TemplateError e

/-- Mirror of the `#[from]` conversion `PutAlertError → DbError`. -/
def PutAlertError.toDbError (e : PutAlertError) : DbError :=
  DbError.PutAlert e

/-- Mirror of the `#[from]` conversion `DbError → Error`. -/
def DbError.toError (e : DbError) : Error :=
  Error.DbError e

/-- Mirror of the `#[from]` conversion `FromStrError → Error`. -/
def FromStrError.toError (e : FromStrError) : Error :=
  Error.FromStrError e

/-- Mirror of the `#[from]` conversion `FromI16Error → Error`. -/
def FromI16Error.toError (e : FromI16Error) : Error :=
  Error.FromI16Error e

/-- Mirror of `impl From<sea_orm::DbErr> for Error` (lines 198-202):
`Error::DbError(DbError::SeaORMError(value.to_string()))`, with the
external `sea_orm::DbErr` value modelled by its rendered output. -/
def seaOrmDbErrToError (e : ExternalError) : Error :=
  Error.DbError (DbError.SeaORMError e.rendered)

/-- Mirror of `impl From<GetDashboardError> for Error` (lines 204-208):
`Error::DbError(value.into())`. -/
def GetDashboardError.toError (e : GetDashboardError) : Error :=
  Error.DbError e.toDbError

/-- Mirror of `impl From<PutDashboardError> for Error` (lines 210-214). -/
def PutDashboardError.toError (e : PutDashboardError) : Error :=
  Error.DbError e.toDbError

/-- Mirror of `impl From<DestinationError> for Error` (lines 216-220). -/
def DestinationError.toError (e : DestinationError) : Error :=
  Error.DbError e.toDbError

/-- Mirror of `impl From<TemplateError> for Error` (lines 222-226). -/
def TemplateError.toError (e : TemplateError) : Error :=
  Error.DbError e.toDbError

/-- The final code dispatch of `ErrorCodes::from_json` (lines 349-362),
taking the 16-bit code, the extracted `inner` text and the raw input. -/
def matchCode (code : Nat) (message raw : String) : Except Error ErrorCodes :=
  match code with
  | 10001 => .ok (.ServerInternalError message)
  | 20001 => .ok (.SearchSQLNotValid message)
  | 20002 => .ok (.SearchStreamNotFound message)
  | 20003 => .ok (.FullTextSearchFieldNotFound)
  | 20004 => .ok (.SearchFieldNotFound message)
  | 20005 => .ok (.SearchFunctionNotDefined message)
  | 20006 => .ok (.SearchParquetFileNotFound)
  | 20007 => .ok (.SearchFieldHasNoCompatibleDataType message)
  | 20008 => .ok (.SearchSQLExecuteError message)
  | 20009 => .ok (.SearchCancelQuery message)
  | 20010 => .ok (.SearchTimeout message)
  | _ => .ok (.ServerInternalError raw)

/-- Body of `ErrorCodes::from_json` (lines 326-363) after the serde
parse step: inspect the parse result, extract `code` (cast to `u16`,
i.e. reduced modulo 2^16) and `inner`, and dispatch; every failure
path falls back to `Ok(ServerInternalError(raw))`. -/
def from_json_core (parsed : Option Json) (raw : String) : Except Error ErrorCodes :=
  match parsed with
  | none => .ok (.ServerInternalError raw)
  | some val =>
    match val.as_object with
    | none => .ok (.ServerInternalError raw)
    | some map =>
      match lookupKV map "code" with
      | none => .ok (.ServerInternalError raw)
      | some codeVal =>
        match codeVal.as_i64 with
        | none => .ok (.ServerInternalError raw)
        | some code =>
          match lookupKV map "inner" with
          | none => .ok (.ServerInternalError raw)
          | some innerVal =>
            let message : String :=
              match innerVal with
              | .str m => m
              | other => String.mk (renderJson other)
            matchCode (code % 65536).toNat message raw

/-- Mirror of `ErrorCodes::from_json`. -/
def ErrorCodes.from_json (s : String) : Except Error ErrorCodes :=
  from_json_core (Json.parse s) s

end Infra

/-! Helper lemmas about the JSON codec. -/

namespace Infra

/-- Reading back a hex digit recovers the encoded value. -/
theorem hexVal_hexDigitChar : ∀ n < 16, hexVal (hexDigitChar n) = some n := by decide

/-- Whitespace skipping stops at a non-whitespace head. -/
theorem skipWS_not_ws (c : Char) (l : List Char) (h : isWSChar c = false) :
    skipWS (c :: l) = c :: l := by
  simp [skipWS, h]

/-- One escaped character parses back to itself. -/
theorem parseStringBody_escapeChar (c : Char) (l s r : List Char)
    (h : parseStringBody l = some (s, r)) :
    parseStringBody (escapeChar c ++ l) = some (c :: s, r) := by
  by_cases h1 : c = '"'
  · subst h1; rw [show escapeChar '"' ++ l = '\\' :: '"' :: l from rfl]
    rw [parseStringBody.eq_def]; simp [h]
  by_cases h2 : c = '\\'
  · subst h2; rw [show escapeChar '\\' ++ l = '\\' :: '\\' :: l from rfl]
    rw [parseStringBody.eq_def]; simp [h]
  by_cases h3 : c = Char.ofNat 8
  · subst h3; rw [show escapeChar (Char.ofNat 8) ++ l = '\\' :: 'b' :: l from rfl]
    rw [parseStringBody.eq_def]; simp [h]
  by_cases h4 : c = Char.ofNat 9
  · subst h4; rw [show escapeChar (Char.ofNat 9) ++ l = '\\' :: 't' :: l from rfl]
    rw [parseStringBody.eq_def]; simp [h]
  by_cases h5 : c = '\n'
  · subst h5; rw [show escapeChar '\n' ++ l = '\\' :: 'n' :: l from rfl]
    rw [parseStringBody.eq_def]; simp [h]
  by_cases h6 : c = Char.ofNat 12
  · subst h6; rw [show escapeChar (Char.ofNat 12) ++ l = '\\' :: 'f' :: l from rfl]
    rw [parseStringBody.eq_def]; simp [h]
  by_cases h7 : c = '\r'
  · subst h7; rw [show escapeChar '\r' ++ l = '\\' :: 'r' :: l from rfl]
    rw [parseStringBody.eq_def]; simp [h]
  by_cases h8 : c.toNat < 32
  · have e : escapeChar c =
        ['\\', 'u', '0', '0', hexDigitChar (c.toNat / 16), hexDigitChar (c.toNat % 16)] := by
      simp [escapeChar, h1, h2, h3, h4, h5, h6, h7, h8]
    rw [e]
    have hd1 : hexVal (hexDigitChar (c.toNat / 16)) = some (c.toNat / 16) :=
      hexVal_hexDigitChar _ (by omega)
    have hd2 : hexVal (hexDigitChar (c.toNat % 16)) = some (c.toNat % 16) :=
      hexVal_hexDigitChar _ (by omega)
    have h0 : hexVal '0' = some 0 := rfl
    simp only [List.cons_append, List.nil_append]
    rw [parseStringBody.eq_def]
    simp only [h0, hd1, hd2]
    have hn : ((0 * 16 + 0) * 16 + c.toNat / 16) * 16 + c.toNat % 16 = c.toNat := by omega
    simp only [hn]
    simp [h]
    omega
  · have e : escapeChar c = [c] := by
      simp [escapeChar, h1, h2, h3, h4, h5, h6, h7, h8]
    rw [e]
    simp only [List.cons_append, List.nil_append]
    rw [parseStringBody.eq_def]
    simp [h1, h2, h8, h]

/-- An escaped character sequence followed by a closing quote parses
back to the original sequence. -/
theorem parseStringBody_escAcc (s : List Char) (rest : List Char) :
    parseStringBody (escAcc s ('"' :: rest)) = some (s, rest) := by
  induction s with
  | nil =>
    rw [show escAcc [] ('"' :: rest) = '"' :: rest from rfl, parseStringBody.eq_def]
    simp
  | cons c cs ih => exact parseStringBody_escapeChar c _ _ _ ih

end Infra

namespace Infra

theorem skipWS_quote (l : List Char) : skipWS ('"' :: l) = '"' :: l := skipWS_not_ws _ _ (by decide)

theorem skipWS_lbrace (l : List Char) : skipWS (lbrace :: l) = lbrace :: l := skipWS_not_ws _ _ (by decide)

theorem skipWS_colon (l : List Char) : skipWS (':' :: l) = ':' :: l := skipWS_not_ws _ _ (by decide)

theorem skipWS_comma (l : List Char) : skipWS (',' :: l) = ',' :: l := skipWS_not_ws _ _ (by decide)

theorem skipWS_rbrace (l : List Char) : skipWS (rbrace :: l) = rbrace :: l := skipWS_not_ws _ _ (by decide)

theorem psb_code (R : List Char) :
    parseStringBody ('c' :: 'o' :: 'd' :: 'e' :: '"' :: R) = some (['c', 'o', 'd', 'e'], R) :=
  parseStringBody_escAcc ['c', 'o', 'd', 'e'] R

theorem psb_message (R : List Char) :
    parseStringBody ('m' :: 'e' :: 's' :: 's' :: 'a' :: 'g' :: 'e' :: '"' :: R) =
      some (['m', 'e', 's', 's', 'a', 'g', 'e'], R) :=
  parseStringBody_escAcc ['m', 'e', 's', 's', 'a', 'g', 'e'] R

theorem psb_inner (R : List Char) :
    parseStringBody ('i' :: 'n' :: 'n' :: 'e' :: 'r' :: '"' :: R) =
      some (['i', 'n', 'n', 'e', 'r'], R) :=
  parseStringBody_escAcc ['i', 'n', 'n', 'e', 'r'] R

theorem parseVal_obj3 (d : Nat) (c0 : Char) (nds : List Char) (n : Int)
    (m i rest : List Char)
    (hw : isWSChar c0 = false) (hq : c0 ≠ '"') (hb : c0 ≠ lbrace) (hk : c0 ≠ '[')
    (ht : c0 ≠ 't') (hf : c0 ≠ 'f') (hnn : c0 ≠ 'n') (hm : c0 ≠ '-')
    (hd : c0.isDigit = true)
    (hnum : ∀ r, parseNum false (c0 :: (nds ++ ',' :: r)) = some (Json.num n, ',' :: r)) :
    parseVal (d + 3)
      (lbrace :: '"' :: 'c' :: 'o' :: 'd' :: 'e' :: '"' :: ':' :: c0 :: (nds ++
        ',' :: '"' :: 'm' :: 'e' :: 's' :: 's' :: 'a' :: 'g' :: 'e' :: '"' :: ':' :: '"' ::
        escAcc m ('"' :: ',' :: '"' :: 'i' :: 'n' :: 'n' :: 'e' :: 'r' :: '"' :: ':' :: '"' ::
        escAcc i ('"' :: rbrace :: rest)))) =
      some (Json.obj [("code", Json.num n), ("message", Json.str (String.mk m)),
        ("inner", Json.str (String.mk i))], rest) := by
  show parseValCore (fun l => parseVal (d + 2) l) (d + 3) _ = _
  rw [parseValCore.eq_def]
  rw [skipWS_lbrace]
  simp only []
  rw [if_neg (by decide : ¬(lbrace = '"'))]
  simp only [if_true]
  rw [skipWS_quote]
  simp only []
  rw [if_neg (by decide : ¬('"' = rbrace))]
  rw [show (d : Nat) + 3 = (d + 2) + 1 from rfl]
  rw [membersLoop]
  rw [skipWS_quote]
  simp only []
  rw [psb_code]
  simp only []
  rw [skipWS_colon]
  simp only []
  rw [show (d : Nat) + 2 = (d + 1) + 1 from rfl]
  rw [parseVal]
  rw [parseValCore.eq_def]
  rw [skipWS_not_ws _ _ hw]
  simp only []
  rw [if_neg hq, if_neg hb, if_neg hk, if_neg ht, if_neg hf, if_neg hnn, if_neg hm]
  rw [if_pos hd]
  rw [hnum]
  simp only []
  rw [skipWS_comma]
  simp only []
  rw [membersLoop]
  rw [skipWS_quote]
  simp only []
  rw [psb_message]
  simp only []
  rw [skipWS_colon]
  simp only []
  rw [parseVal]
  rw [parseValCore.eq_def]
  rw [skipWS_quote]
  simp only []
  rw [if_pos trivial]
  rw [parseStringBody_escAcc]
  simp only [Option.map]
  rw [skipWS_comma]
  simp only []
  rw [membersLoop]
  rw [skipWS_quote]
  simp only []
  rw [psb_inner]
  simp only []
  rw [skipWS_colon]
  simp only []
  rw [parseVal]
  rw [parseValCore.eq_def]
  rw [skipWS_quote]
  simp only []
  rw [if_pos trivial]
  rw [parseStringBody_escAcc]
  simp only [Option.map]
  rw [skipWS_rbrace]
  exact rfl

theorem json_parse_obj3 (c0 : Char) (nds : List Char) (n : Int) (m i : List Char)
    (hw : isWSChar c0 = false) (hq : c0 ≠ '"') (hb : c0 ≠ lbrace) (hk : c0 ≠ '[')
    (ht : c0 ≠ 't') (hf : c0 ≠ 'f') (hnn : c0 ≠ 'n') (hm : c0 ≠ '-')
    (hd : c0.isDigit = true)
    (hnum : ∀ r, parseNum false (c0 :: (nds ++ ',' :: r)) = some (Json.num n, ',' :: r)) :
    Json.parse (String.mk
      (lbrace :: '"' :: 'c' :: 'o' :: 'd' :: 'e' :: '"' :: ':' :: c0 :: (nds ++
        ',' :: '"' :: 'm' :: 'e' :: 's' :: 's' :: 'a' :: 'g' :: 'e' :: '"' :: ':' :: '"' ::
        escAcc m ('"' :: ',' :: '"' :: 'i' :: 'n' :: 'n' :: 'e' :: 'r' :: '"' :: ':' :: '"' ::
        escAcc i ('"' :: rbrace :: []))))) =
      some (Json.obj [("code", Json.num n), ("message", Json.str (String.mk m)),
        ("inner", Json.str (String.mk i))]) := by
  rw [Json.parse.eq_def]
  rw [parseVal_obj3 _ c0 nds n m i [] hw hq hb hk ht hf hnn hm hd hnum]
  simp [skipWS]

theorem parse_to_json (v : ErrorCodes) :
    Json.parse (ErrorCodes.to_json v) =
      some (Json.obj [("code", Json.num (Int.ofNat v.get_code)),
        ("message", Json.str v.get_message), ("inner", Json.str v.get_inner_message)]) := by
  cases v with
  | ServerInternalError p =>
    have h3 : ErrorCodes.to_json (.ServerInternalError p) =
        String.mk (renderJson (Json.obj [("code", Json.num 10001), ("message", Json.str "Server Internal Error"), ("inner", Json.str p)])) :=
      congrArg (fun j => String.mk (renderJson j))
        (rfl : ErrorCodes.to_json_value (.ServerInternalError p) = _)
    rw [h3]
    exact json_parse_obj3 '1' ['0', '0', '0', '1'] 10001
      "Server Internal Error".data p.data
      (by decide) (by decide) (by decide) (by decide) (by decide) (by decide) (by decide)
      (by decide) (by decide) (fun r => rfl)
  | SearchSQLNotValid p =>
    have h3 : ErrorCodes.to_json (.SearchSQLNotValid p) =
        String.mk (renderJson (Json.obj [("code", Json.num 20001), ("message", Json.str "Search SQL not valid"), ("inner", Json.str p)])) :=
      congrArg (fun j => String.mk (renderJson j))
        (rfl : ErrorCodes.to_json_value (.SearchSQLNotValid p) = _)
    rw [h3]
    exact json_parse_obj3 '2' ['0', '0', '0', '1'] 20001
      "Search SQL not valid".data p.data
      (by decide) (by decide) (by decide) (by decide) (by decide) (by decide) (by decide)
      (by decide) (by decide) (fun r => rfl)
  | SearchStreamNotFound p =>
    have h3 : ErrorCodes.to_json (.SearchStreamNotFound p) =
        String.mk (renderJson (Json.obj [("code", Json.num 20002), ("message", Json.str ("Search stream not found: " ++ p)), ("inner", Json.str p)])) :=
      congrArg (fun j => String.mk (renderJson j))
        (rfl : ErrorCodes.to_json_value (.SearchStreamNotFound p) = _)
    rw [h3]
    exact json_parse_obj3 '2' ['0', '0', '0', '2'] 20002
      ("Search stream not found: " ++ p).data p.data
      (by decide) (by decide) (by decide) (by decide) (by decide) (by decide) (by decide)
      (by decide) (by decide) (fun r => rfl)
  | FullTextSearchFieldNotFound =>
    have h3 : ErrorCodes.to_json (.FullTextSearchFieldNotFound) =
        String.mk (renderJson (Json.obj [("code", Json.num 20003), ("message", Json.str "Full text search field not found"), ("inner", Json.str "")])) :=
      congrArg (fun j => String.mk (renderJson j))
        (rfl : ErrorCodes.to_json_value (.FullTextSearchFieldNotFound) = _)
    rw [h3]
    exact json_parse_obj3 '2' ['0', '0', '0', '3'] 20003
      "Full text search field not found".data ("" : String).data
      (by decide) (by decide) (by decide) (by decide) (by decide) (by decide) (by decide)
      (by decide) (by decide) (fun r => rfl)
  | SearchFieldNotFound p =>
    have h3 : ErrorCodes.to_json (.SearchFieldNotFound p) =
        String.mk (renderJson (Json.obj [("code", Json.num 20004), ("message", Json.str ("Search field not found: " ++ p)), ("inner", Json.str p)])) :=
      congrArg (fun j => String.mk (renderJson j))
        (rfl : ErrorCodes.to_json_value (.SearchFieldNotFound p) = _)
    rw [h3]
    exact json_parse_obj3 '2' ['0', '0', '0', '4'] 20004
      ("Search field not found: " ++ p).data p.data
      (by decide) (by decide) (by decide) (by decide) (by decide) (by decide) (by decide)
      (by decide) (by decide) (fun r => rfl)
  | SearchFunctionNotDefined p =>
    have h3 : ErrorCodes.to_json (.SearchFunctionNotDefined p) =
        String.mk (renderJson (Json.obj [("code", Json.num 20005), ("message", Json.str ("Search function not defined: " ++ p)), ("inner", Json.str p)])) :=
      congrArg (fun j => String.mk (renderJson j))
        (rfl : ErrorCodes.to_json_value (.SearchFunctionNotDefined p) = _)
    rw [h3]
    exact json_parse_obj3 '2' ['0', '0', '0', '5'] 20005
      ("Search function not defined: " ++ p).data p.data
      (by decide) (by decide) (by decide) (by decide) (by decide) (by decide) (by decide)
      (by decide) (by decide) (fun r => rfl)
  | SearchParquetFileNotFound =>
    have h3 : ErrorCodes.to_json (.SearchParquetFileNotFound) =
        String.mk (renderJson (Json.obj [("code", Json.num 20006), ("message", Json.str "Search parquet file not found"), ("inner", Json.str "")])) :=
      congrArg (fun j => String.mk (renderJson j))
        (rfl : ErrorCodes.to_json_value (.SearchParquetFileNotFound) = _)
    rw [h3]
    exact json_parse_obj3 '2' ['0', '0', '0', '6'] 20006
      "Search parquet file not found".data ("" : String).data
      (by decide) (by decide) (by decide) (by decide) (by decide) (by decide) (by decide)
      (by decide) (by decide) (fun r => rfl)
  | SearchFieldHasNoCompatibleDataType p =>
    have h3 : ErrorCodes.to_json (.SearchFieldHasNoCompatibleDataType p) =
        String.mk (renderJson (Json.obj [("code", Json.num 20007), ("message", Json.str ("Search field has no compatible data type: " ++ p)), ("inner", Json.str p)])) :=
      congrArg (fun j => String.mk (renderJson j))
        (rfl : ErrorCodes.to_json_value (.SearchFieldHasNoCompatibleDataType p) = _)
    rw [h3]
    exact json_parse_obj3 '2' ['0', '0', '0', '7'] 20007
      ("Search field has no compatible data type: " ++ p).data p.data
      (by decide) (by decide) (by decide) (by decide) (by decide) (by decide) (by decide)
      (by decide) (by decide) (fun r => rfl)
  | SearchSQLExecuteError p =>
    have h3 : ErrorCodes.to_json (.SearchSQLExecuteError p) =
        String.mk (renderJson (Json.obj [("code", Json.num 20008), ("message", Json.str "Search SQL execute error"), ("inner", Json.str p)])) :=
      congrArg (fun j => String.mk (renderJson j))
        (rfl : ErrorCodes.to_json_value (.SearchSQLExecuteError p) = _)
    rw [h3]
    exact json_parse_obj3 '2' ['0', '0', '0', '8'] 20008
      "Search SQL execute error".data p.data
      (by decide) (by decide) (by decide) (by decide) (by decide) (by decide) (by decide)
      (by decide) (by decide) (fun r => rfl)
  | SearchCancelQuery p =>
    have h3 : ErrorCodes.to_json (.SearchCancelQuery p) =
        String.mk (renderJson (Json.obj [("code", Json.num 20009), ("message", Json.str "Search query was cancelled"), ("inner", Json.str p)])) :=
      congrArg (fun j => String.mk (renderJson j))
        (rfl : ErrorCodes.to_json_value (.SearchCancelQuery p) = _)
    rw [h3]
    exact json_parse_obj3 '2' ['0', '0', '0', '9'] 20009
      "Search query was cancelled".data p.data
      (by decide) (by decide) (by decide) (by decide) (by decide) (by decide) (by decide)
      (by decide) (by decide) (fun r => rfl)
  | SearchTimeout p =>
    have h3 : ErrorCodes.to_json (.SearchTimeout p) =
        String.mk (renderJson (Json.obj [("code", Json.num 20010), ("message", Json.str "Search query timed out"), ("inner", Json.str p)])) :=
      congrArg (fun j => String.mk (renderJson j))
        (rfl : ErrorCodes.to_json_value (.SearchTimeout p) = _)
    rw [h3]
    exact json_parse_obj3 '2' ['0', '0', '1', '0'] 20010
      "Search query timed out".data p.data
      (by decide) (by decide) (by decide) (by decide) (by decide) (by decide) (by decide)
      (by decide) (by decide) (fun r => rfl)
  | InvalidParams p =>
    have h3 : ErrorCodes.to_json (.InvalidParams p) =
        String.mk (renderJson (Json.obj [("code", Json.num 20011), ("message", Json.str "Invalid parameters"), ("inner", Json.str p)])) :=
      congrArg (fun j => String.mk (renderJson j))
        (rfl : ErrorCodes.to_json_value (.InvalidParams p) = _)
    rw [h3]
    exact json_parse_obj3 '2' ['0', '0', '1', '1'] 20011
      "Invalid parameters".data p.data
      (by decide) (by decide) (by decide) (by decide) (by decide) (by decide) (by decide)
      (by decide) (by decide) (fun r => rfl)
  | RatelimitExceeded p =>
    have h3 : ErrorCodes.to_json (.RatelimitExceeded p) =
        String.mk (renderJson (Json.obj [("code", Json.num 20012), ("message", Json.str "Ratelimit exceeded"), ("inner", Json.str p)])) :=
      congrArg (fun j => String.mk (renderJson j))
        (rfl : ErrorCodes.to_json_value (.RatelimitExceeded p) = _)
    rw [h3]
    exact json_parse_obj3 '2' ['0', '0', '1', '2'] 20012
      "Ratelimit exceeded".data p.data
      (by decide) (by decide) (by decide) (by decide) (by decide) (by decide) (by decide)
      (by decide) (by decide) (fun r => rfl)

theorem from_json_core_parsed (v : ErrorCodes) (hhi : v.get_code ≤ 20010) (raw : String) :
    from_json_core (some (Json.obj [("code", Json.num (Int.ofNat v.get_code)),
      ("message", Json.str v.get_message), ("inner", Json.str v.get_inner_message)])) raw =
      .ok v := by
  cases v with
  | ServerInternalError p =>
    show from_json_core (some (Json.obj [("code", Json.num 10001),
      ("message", Json.str "Server Internal Error"), ("inner", Json.str p)])) raw = .ok (.ServerInternalError p)
    exact rfl
  | SearchSQLNotValid p =>
    show from_json_core (some (Json.obj [("code", Json.num 20001),
      ("message", Json.str "Search SQL not valid"), ("inner", Json.str p)])) raw = .ok (.SearchSQLNotValid p)
    exact rfl
  | SearchStreamNotFound p =>
    show from_json_core (some (Json.obj [("code", Json.num 20002),
      ("message", Json.str ("Search stream not found: " ++ p)), ("inner", Json.str p)])) raw = .ok (.SearchStreamNotFound p)
    exact rfl
  | FullTextSearchFieldNotFound =>
    show from_json_core (some (Json.obj [("code", Json.num 20003),
      ("message", Json.str "Full text search field not found"), ("inner", Json.str "")])) raw = .ok (.FullTextSearchFieldNotFound)
    exact rfl
  | SearchFieldNotFound p =>
    show from_json_core (some (Json.obj [("code", Json.num 20004),
      ("message", Json.str ("Search field not found: " ++ p)), ("inner", Json.str p)])) raw = .ok (.SearchFieldNotFound p)
    exact rfl
  | SearchFunctionNotDefined p =>
    show from_json_core (some (Json.obj [("code", Json.num 20005),
      ("message", Json.str ("Search function not defined: " ++ p)), ("inner", Json.str p)])) raw = .ok (.SearchFunctionNotDefined p)
    exact rfl
  | SearchParquetFileNotFound =>
    show from_json_core (some (Json.obj [("code", Json.num 20006),
      ("message", Json.str "Search parquet file not found"), ("inner", Json.str "")])) raw = .ok (.SearchParquetFileNotFound)
    exact rfl
  | SearchFieldHasNoCompatibleDataType p =>
    show from_json_core (some (Json.obj [("code", Json.num 20007),
      ("message", Json.str ("Search field has no compatible data type: " ++ p)), ("inner", Json.str p)])) raw = .ok (.SearchFieldHasNoCompatibleDataType p)
    exact rfl
  | SearchSQLExecuteError p =>
    show from_json_core (some (Json.obj [("code", Json.num 20008),
      ("message", Json.str "Search SQL execute error"), ("inner", Json.str p)])) raw = .ok (.SearchSQLExecuteError p)
    exact rfl
  | SearchCancelQuery p =>
    show from_json_core (some (Json.obj [("code", Json.num 20009),
      ("message", Json.str "Search query was cancelled"), ("inner", Json.str p)])) raw = .ok (.SearchCancelQuery p)
    exact rfl
  | SearchTimeout p =>
    show from_json_core (some (Json.obj [("code", Json.num 20010),
      ("message", Json.str "Search query timed out"), ("inner", Json.str p)])) raw = .ok (.SearchTimeout p)
    exact rfl
  | InvalidParams p => simp [ErrorCodes.get_code] at hhi
  | RatelimitExceeded p => simp [ErrorCodes.get_code] at hhi

/-- C1: for every `ErrorCodes` variant whose code lies in 10001..20010,
decoding the JSON produced by encoding it yields `Ok` of a value with
the same `get_code` and the same `get_inner_message` text. -/
theorem c1_roundtrip (v : ErrorCodes) (_hlo : 10001 ≤ v.get_code) (hhi : v.get_code ≤ 20010) :
    ∃ w, ErrorCodes.from_json (ErrorCodes.to_json v) = .ok w ∧
      w.get_code = v.get_code ∧ w.get_inner_message = v.get_inner_message := by
  simp only [ErrorCodes.from_json]
  rw [parse_to_json v, from_json_core_parsed v hhi]
  exact ⟨v, rfl, rfl, rfl⟩

/-- Witness for C1 at the concrete variant `SearchStreamNotFound "logs"`. -/
theorem c1_roundtrip_witness :
    ∃ w, ErrorCodes.from_json (ErrorCodes.to_json (.SearchStreamNotFound "logs")) = .ok w ∧
      w.get_code = (ErrorCodes.SearchStreamNotFound "logs").get_code ∧
      w.get_inner_message = (ErrorCodes.SearchStreamNotFound "logs").get_inner_message :=
  c1_roundtrip (.SearchStreamNotFound "logs") (by decide) (by decide)

end Infra

/-! Statements settling the remaining claims. -/

namespace Infra

/-- Helper: the final code dispatch always returns `Ok`. -/
theorem matchCode_ok (c : Nat) (m r : String) : ∃ e, matchCode c m r = .ok e := by
  unfold matchCode; split <;> exact ⟨_, rfl⟩

/-- C2: `from_json` is total and never fails.  On input that does not
parse, parses to a non-object, lacks a `code` member, has a
non-numeric `code`, or lacks an `inner` member, it returns
`Ok(ServerInternalError(s))` carrying the exact original input string,
and on every input it returns `Ok` of some value (the embedding is a
total function, so it cannot raise). -/
theorem c2_total_decode :
    (∀ s : String, Json.parse s = none →
      ErrorCodes.from_json s = .ok (.ServerInternalError s)) ∧
    (∀ (s : String) (j : Json), Json.parse s = some j → j.as_object = none →
      ErrorCodes.from_json s = .ok (.ServerInternalError s)) ∧
    (∀ (s : String) (j : Json) ms, Json.parse s = some j → j.as_object = some ms →
      lookupKV ms "code" = none →
      ErrorCodes.from_json s = .ok (.ServerInternalError s)) ∧
    (∀ (s : String) (j : Json) ms cv, Json.parse s = some j → j.as_object = some ms →
      lookupKV ms "code" = some cv → cv.as_i64 = none →
      ErrorCodes.from_json s = .ok (.ServerInternalError s)) ∧
    (∀ (s : String) (j : Json) ms, Json.parse s = some j → j.as_object = some ms →
      lookupKV ms "inner" = none →
      ErrorCodes.from_json s = .ok (.ServerInternalError s)) ∧
    (∀ s : String, ∃ e, ErrorCodes.from_json s = .ok e) := by
  refine ⟨?_, ?_, ?_, ?_, ?_, ?_⟩
  · intro s h; simp [ErrorCodes.from_json, from_json_core, h]
  · intro s j h1 h2; simp [ErrorCodes.from_json, from_json_core, h1, h2]
  · intro s j ms h1 h2 h3; simp [ErrorCodes.from_json, from_json_core, h1, h2, h3]
  · intro s j ms cv h1 h2 h3 h4
    simp [ErrorCodes.from_json, from_json_core, h1, h2, h3, h4]
  · intro s j ms h1 h2 h3
    simp only [ErrorCodes.from_json, from_json_core, h1, h2]
    rcases hc : lookupKV ms "code" with _ | cv
    · rfl
    · simp only []
      rcases hi : cv.as_i64 with _ | c
      · rfl
      · simp [h3]
  · intro s
    simp only [ErrorCodes.from_json, from_json_core]
    rcases hp : Json.parse s with _ | j
    · exact ⟨_, rfl⟩
    simp only []
    rcases ho : j.as_object with _ | ms
    · exact ⟨_, rfl⟩
    simp only [ho]
    rcases hc : lookupKV ms "code" with _ | cv
    · exact ⟨_, rfl⟩
    simp only []
    rcases hi : cv.as_i64 with _ | c
    · exact ⟨_, rfl⟩
    simp only []
    rcases hn : lookupKV ms "inner" with _ | iv
    · exact ⟨_, rfl⟩
    simp only []
    exact matchCode_ok _ _ _

/-- Witness for C2 at concrete inputs exercising each failure shape:
a non-JSON string, a JSON array, an object without `code`, an object
with a non-numeric `code`, and an object without `inner`. -/
theorem c2_total_decode_witness :
    ErrorCodes.from_json "not json" = .ok (.ServerInternalError "not json") ∧
    ErrorCodes.from_json "[1]" = .ok (.ServerInternalError "[1]") ∧
    ErrorCodes.from_json "\x7b\"foo\":1\x7d" = .ok (.ServerInternalError "\x7b\"foo\":1\x7d") ∧
    ErrorCodes.from_json "\x7b\"code\":\"x\",\"inner\":\"y\"\x7d" =
      .ok (.ServerInternalError "\x7b\"code\":\"x\",\"inner\":\"y\"\x7d") ∧
    ErrorCodes.from_json "\x7b\"code\":20001\x7d" =
      .ok (.ServerInternalError "\x7b\"code\":20001\x7d") := by
  obtain ⟨h1, h2, h3, h4, h5, -⟩ := c2_total_decode
  refine ⟨h1 _ rfl, h2 _ _ rfl rfl, h3 _ _ _ rfl rfl rfl, h4 _ _ _ _ rfl rfl rfl rfl,
    h5 _ _ _ rfl rfl rfl⟩

/-- C5: `get_code` is a pure function of the variant tag only and
returns exactly the fixed table 10001, 20001..20012; two values have
equal codes exactly when they have the same tag, so distinct variants
have distinct codes. -/
theorem c5_code_table :
    (∀ p, (ErrorCodes.ServerInternalError p).get_code = 10001) ∧
    (∀ p, (ErrorCodes.SearchSQLNotValid p).get_code = 20001) ∧
    (∀ p, (ErrorCodes.SearchStreamNotFound p).get_code = 20002) ∧
    ErrorCodes.FullTextSearchFieldNotFound.get_code = 20003 ∧
    (∀ p, (ErrorCodes.SearchFieldNotFound p).get_code = 20004) ∧
    (∀ p, (ErrorCodes.SearchFunctionNotDefined p).get_code = 20005) ∧
    ErrorCodes.SearchParquetFileNotFound.get_code = 20006 ∧
    (∀ p, (ErrorCodes.SearchFieldHasNoCompatibleDataType p).get_code = 20007) ∧
    (∀ p, (ErrorCodes.SearchSQLExecuteError p).get_code = 20008) ∧
    (∀ p, (ErrorCodes.SearchCancelQuery p).get_code = 20009) ∧
    (∀ p, (ErrorCodes.SearchTimeout p).get_code = 20010) ∧
    (∀ p, (ErrorCodes.InvalidParams p).get_code = 20011) ∧
    (∀ p, (ErrorCodes.RatelimitExceeded p).get_code = 20012) ∧
    (∀ v w : ErrorCodes, v.tagIdx = w.tagIdx → v.get_code = w.get_code) ∧
    (∀ v w : ErrorCodes, v.get_code = w.get_code → v.tagIdx = w.tagIdx) := by
  refine ⟨fun _ => rfl, fun _ => rfl, fun _ => rfl, rfl, fun _ => rfl, fun _ => rfl, rfl,
    fun _ => rfl, fun _ => rfl, fun _ => rfl, fun _ => rfl, fun _ => rfl, fun _ => rfl, ?_, ?_⟩
  · intro v w h
    cases v <;> cases w <;> first | rfl | simp [ErrorCodes.tagIdx] at h
  · intro v w h
    cases v <;> cases w <;> first | rfl | simp [ErrorCodes.get_code] at h

/-- Witness for C5: the tag-only dependence and injectivity applied at
concrete payloads. -/
theorem c5_code_table_witness :
    (ErrorCodes.SearchSQLNotValid "a").get_code = (ErrorCodes.SearchSQLNotValid "b").get_code ∧
    (ErrorCodes.SearchTimeout "x").tagIdx = (ErrorCodes.SearchTimeout "y").tagIdx := by
  obtain ⟨-, -, -, -, -, -, -, -, -, -, -, -, -, hpure, hinj⟩ := c5_code_table
  exact ⟨hpure _ _ rfl, hinj _ _ rfl⟩

/-- C6: `get_error_detail` returns the empty string for the six
identifier-carrying variants and the payload verbatim for the seven
remaining variants. -/
theorem c6_detail_policy :
    (∀ p, (ErrorCodes.SearchStreamNotFound p).get_error_detail = "") ∧
    ErrorCodes.FullTextSearchFieldNotFound.get_error_detail = "" ∧
    (∀ p, (ErrorCodes.SearchFieldNotFound p).get_error_detail = "") ∧
    (∀ p, (ErrorCodes.SearchFunctionNotDefined p).get_error_detail = "") ∧
    ErrorCodes.SearchParquetFileNotFound.get_error_detail = "" ∧
    (∀ p, (ErrorCodes.SearchFieldHasNoCompatibleDataType p).get_error_detail = "") ∧
    (∀ p, (ErrorCodes.ServerInternalError p).get_error_detail = p) ∧
    (∀ p, (ErrorCodes.SearchSQLNotValid p).get_error_detail = p) ∧
    (∀ p, (ErrorCodes.SearchSQLExecuteError p).get_error_detail = p) ∧
    (∀ p, (ErrorCodes.SearchCancelQuery p).get_error_detail = p) ∧
    (∀ p, (ErrorCodes.SearchTimeout p).get_error_detail = p) ∧
    (∀ p, (ErrorCodes.InvalidParams p).get_error_detail = p) ∧
    (∀ p, (ErrorCodes.RatelimitExceeded p).get_error_detail = p) :=
  ⟨fun _ => rfl, rfl, fun _ => rfl, fun _ => rfl, rfl, fun _ => rfl, fun _ => rfl,
    fun _ => rfl, fun _ => rfl, fun _ => rfl, fun _ => rfl, fun _ => rfl, fun _ => rfl⟩

/-- Counterexample for C3: the conversion chain does not render as the
claimed string, because `DbError::PutDashboard` prefixes its own
`PutDashboard# ` tag. -/
theorem c3_display_chain_counterexample :
    PutDashboardError.MissingTitle.toError.display ≠
      "DbError# error putting dashboard with missing title" := by decide

/-- C3 (amended): constructing `PutDashboardError::MissingTitle`,
converting to `DbError` and then to `Error`, renders as
`"DbError# PutDashboard# error putting dashboard with missing title"`
(the Persistence layer inserts its own `PutDashboard# ` tag). -/
theorem c3_display_chain :
    PutDashboardError.MissingTitle.toError.display =
      "DbError# PutDashboard# error putting dashboard with missing title" := rfl

/-- Counterexample for C7: converting
`GetDashboardError::UnsupportedVersion(5)` upward renders as the fixed
string `"DbError# error getting dashboard"`, which does not contain
the leaf value's own rendering as a suffix. -/
theorem c7_conversion_counterexample :
    ((GetDashboardError.UnsupportedVersion 5).display.data.isSuffixOf
      (GetDashboardError.UnsupportedVersion 5).toError.display.data) = false := by decide

/-- C7 (amended): every registered upward conversion into the apex
type is total and preserves the leaf value's own rendering as a
suffix (each `#[from]` wrapper renders as a fixed tag followed by the
leaf's rendering, and `sea_orm::DbErr`'s manual impl nests it under
`DbError# SeaORMError# `), with the single exception of
`GetDashboardError`: its apex rendering is the fixed string
`"DbError# error getting dashboard"`, which drops the leaf's
rendering. -/
theorem c7_conversion_rendering :
    (∀ e : ExternalError, (Error.IoError e).display = "IoError# " ++ e.rendered) ∧
    (∀ e : ExternalError, (Error.EtcdError e).display = "EtcdError# " ++ e.rendered) ∧
    (∀ e : FromStrError, e.toError.display = "FromStrError# " ++ e.display) ∧
    (∀ e : FromI16Error, e.toError.display = "FromI16Error# " ++ e.display) ∧
    (∀ e : ExternalError, (Error.SerdeJsonError e).display = "SerdeJsonError# " ++ e.rendered) ∧
    (∀ e : ExternalError, (Error.ArrowError e).display = "ArrowError# " ++ e.rendered) ∧
    (∀ e : ExternalError, (Error.StringUTF8Error e).display = "StringUTF8Error# " ++ e.rendered) ∧
    (∀ e : ExternalError, (Error.SqlxError e).display = "SqlxError# " ++ e.rendered) ∧
    (∀ e : ExternalError, (Error.NatsKJetstreamContextRequestError e).display = "Error# " ++ e.rendered) ∧
    (∀ e : ExternalError, (Error.NatsJetstreamContextCreateKeyValueError e).display = "Error# " ++ e.rendered) ∧
    (∀ e : ExternalError, (Error.NatsJetstreamKvEntryError e).display = "Error# " ++ e.rendered) ∧
    (∀ e : ExternalError, (Error.NatsKJetstreamKvPutError e).display = "Error# " ++ e.rendered) ∧
    (∀ e : ExternalError, (Error.NatsKJetstreamKvUpdateError e).display = "Error# " ++ e.rendered) ∧
    (∀ e : ExternalError, (Error.NatsKJetstreamKvWatchError e).display = "Error# " ++ e.rendered) ∧
    (∀ e : ExternalError, (Error.NatsKJetstreamKvWatcherError e).display = "Error# " ++ e.rendered) ∧
    (∀ e : ExternalError, (Error.NatsKJetstreamKvStatusError e).display = "Error# " ++ e.rendered) ∧
    (∀ e : ExternalError, (Error.NatsKJetstreamCreateStreamError e).display = "Error# " ++ e.rendered) ∧
    (∀ e : ExternalError, (Error.NatsKJetstreamGetStreamError e).display = "Error# " ++ e.rendered) ∧
    (∀ e : ExternalError, (Error.NatsKJetstreamPublishError e).display = "Error# " ++ e.rendered) ∧
    (∀ e : ExternalError, (Error.NatsKJetstreamStreamConsumerError e).display = "Error# " ++ e.rendered) ∧
    (∀ e : ExternalError, (Error.NatsKJetstreamConsumerStreamError e).display = "Error# " ++ e.rendered) ∧
    (∀ e : ExternalError, (Error.Reqwest e).display = "Error# " ++ e.rendered) ∧
    (∀ e : ExternalError, (Error.OtherError e).display = "Error# " ++ e.rendered) ∧
    (∀ e : ExternalError, (seaOrmDbErrToError e).display = "DbError# SeaORMError# " ++ e.rendered) ∧
    (∀ d : DbError, d.toError.display = "DbError# " ++ d.display) ∧
    (∀ e : PutDashboardError, e.toError.display = "DbError# PutDashboard# " ++ e.display) ∧
    (∀ e : DestinationError, e.toError.display = "DbError# DestinationError# " ++ e.display) ∧
    (∀ e : TemplateError, e.toError.display = "DbError# TemplateError# " ++ e.display) ∧
    (∀ e : PutAlertError, e.toDbError.toError.display = "DbError# PutAlert# " ++ e.display) ∧
    (∀ e : GetDashboardError, e.toError.display = "DbError# error getting dashboard") := by
  refine ⟨fun e => rfl, fun e => rfl, fun e => rfl, fun e => rfl, fun e => rfl, fun e => rfl,
    fun e => rfl, fun e => rfl, fun e => rfl, fun e => rfl, fun e => rfl, fun e => rfl,
    fun e => rfl, fun e => rfl, fun e => rfl, fun e => rfl, fun e => rfl, fun e => rfl,
    fun e => rfl, fun e => rfl, fun e => rfl, fun e => rfl, fun e => rfl, fun e => rfl,
    fun d => rfl, ?_, ?_, ?_, ?_, fun e => rfl⟩
  all_goals (intro e; cases e <;> rfl)

/-- C9: every conversion from a domain validation value to the apex
type factors through the persistence layer: each `From` impl yields
`Error::DbError` of the persistence-layer conversion, and
`PutAlertError` (which has no direct impl) reaches the apex only via
`DbError`. -/
theorem c9_domain_factoring :
    (∀ d : GetDashboardError, d.toError = Error.DbError d.toDbError) ∧
    (∀ d : PutDashboardError, d.toError = Error.DbError d.toDbError) ∧
    (∀ d : DestinationError, d.toError = Error.DbError d.toDbError) ∧
    (∀ d : TemplateError, d.toError = Error.DbError d.toDbError) ∧
    (∀ d : PutAlertError, d.toDbError.toError = Error.DbError d.toDbError) :=
  ⟨fun _ => rfl, fun _ => rfl, fun _ => rfl, fun _ => rfl, fun _ => rfl⟩

/-- C8: `to_json` builds exactly the three-key object
`code`/`message`/`inner` from `get_code`/`get_message`/
`get_inner_message`; concretely `SearchStreamNotFound "logs"` encodes
to the claimed object and text (key order per spec not significant),
and decoding `'{"code":20002,"message":"x","inner":"logs"}'` yields
`SearchStreamNotFound "logs"`. -/
theorem c8_wire_schema :
    (∀ v : ErrorCodes, v.to_json_value = Json.obj [("code", Json.num (Int.ofNat v.get_code)),
      ("message", Json.str v.get_message), ("inner", Json.str v.get_inner_message)]) ∧
    ErrorCodes.to_json_value (.SearchStreamNotFound "logs") =
      Json.obj [("code", Json.num 20002),
        ("message", Json.str "Search stream not found: logs"), ("inner", Json.str "logs")] ∧
    ErrorCodes.to_json (.SearchStreamNotFound "logs") =
      "\x7b\"code\":20002,\"message\":\"Search stream not found: logs\",\"inner\":\"logs\"\x7d" ∧
    ErrorCodes.from_json "\x7b\"code\":20002,\"message\":\"x\",\"inner\":\"logs\"\x7d" =
      .ok (.SearchStreamNotFound "logs") :=
  ⟨fun _ => rfl, rfl, rfl, rfl⟩


/-- C4: for every parsed JSON object whose numeric `code` field is
20011 or 20012 and which has an `inner` member, `from_json` falls back
to `Ok(ServerInternalError(raw))` carrying the whole original input,
even though these codes are produced by `to_json`; concretely for the
input `'{"code":20012,"message":"x","inner":"y"}'`. -/
theorem c4_codes_20011_20012 :
    (∀ (ms : List (String × Json)) (cv iv : Json) (c : Int) (raw : String),
      lookupKV ms "code" = some cv → cv.as_i64 = some c →
      (c = 20011 ∨ c = 20012) → lookupKV ms "inner" = some iv →
      from_json_core (some (Json.obj ms)) raw = .ok (.ServerInternalError raw)) ∧
    ErrorCodes.from_json "\x7b\"code\":20012,\"message\":\"x\",\"inner\":\"y\"\x7d" =
      .ok (.ServerInternalError "\x7b\"code\":20012,\"message\":\"x\",\"inner\":\"y\"\x7d") := by
  constructor
  · intro ms cv iv c raw hc hi64 hcode hinner
    simp only [from_json_core, Json.as_object, hc, hi64, hinner]
    rcases hcode with rfl | rfl <;> rfl
  · rfl

/-- Witness for C4 at a concrete object with code 20011. -/
theorem c4_codes_20011_20012_witness :
    from_json_core (some (Json.obj [("code", Json.num 20011), ("inner", Json.str "y")])) "raw" =
      .ok (.ServerInternalError "raw") :=
  c4_codes_20011_20012.1 _ _ _ 20011 _ rfl rfl (Or.inl rfl) rfl

/-- C10: `from_json` truncates the numeric `code` field to 16 bits
before matching: for any object with integer `code` in the i64 range
and a string `inner`, the result is the dispatch on `code mod 2^16`,
hence two codes congruent modulo 2^16 decode identically; concretely
code 85537 = 20001 + 2^16 decodes to `SearchSQLNotValid` with the
`inner` payload. -/
theorem c10_u16_truncation :
    (∀ (ms : List (String × Json)) (c : Int) (s raw : String),
      lookupKV ms "code" = some (Json.num c) → -(2 ^ 63) ≤ c → c < 2 ^ 63 →
      lookupKV ms "inner" = some (Json.str s) →
      from_json_core (some (Json.obj ms)) raw = matchCode (c % 65536).toNat s raw) ∧
    (∀ (ms ms' : List (String × Json)) (c c' : Int) (s raw : String),
      lookupKV ms "code" = some (Json.num c) → -(2 ^ 63) ≤ c → c < 2 ^ 63 →
      lookupKV ms' "code" = some (Json.num c') → -(2 ^ 63) ≤ c' → c' < 2 ^ 63 →
      lookupKV ms "inner" = some (Json.str s) → lookupKV ms' "inner" = some (Json.str s) →
      c % 65536 = c' % 65536 →
      from_json_core (some (Json.obj ms)) raw = from_json_core (some (Json.obj ms')) raw) ∧
    ErrorCodes.from_json "\x7b\"code\":85537,\"inner\":\"x\"\x7d" =
      .ok (.SearchSQLNotValid "x") := by
  have main : ∀ (ms : List (String × Json)) (c : Int) (s raw : String),
      lookupKV ms "code" = some (Json.num c) → -(2 ^ 63) ≤ c → c < 2 ^ 63 →
      lookupKV ms "inner" = some (Json.str s) →
      from_json_core (some (Json.obj ms)) raw = matchCode (c % 65536).toNat s raw := by
    intro ms c s raw hc hlo hhi hinner
    simp only [from_json_core, Json.as_object, hc, Json.as_i64, if_pos (And.intro hlo hhi),
      hinner]
  refine ⟨main, ?_, rfl⟩
  intro ms ms' c c' s raw hc hlo hhi hc' hlo' hhi' hi hi' hmod
  rw [main ms c s raw hc hlo hhi hi, main ms' c' s raw hc' hlo' hhi' hi', hmod]

/-- Witness for C10 at the concrete code 85537. -/
theorem c10_u16_truncation_witness :
    from_json_core (some (Json.obj [("code", Json.num 85537), ("inner", Json.str "x")])) "raw" =
      matchCode ((85537 : Int) % 65536).toNat "x" "raw" :=
  c10_u16_truncation.1 _ 85537 "x" "raw" rfl (by decide) (by decide) rfl

end Infra
